import Mathlib

/-!
Shallow embedding of the control logic of the research-agent repository
(`src/workflows/research.py` and `src/models/schemas.py`).

The LLM "agents" are external collaborators: each per-iteration call is
modelled by an input record holding the structured values the stubs would
return.  The control loop (`run_agentic_research`) and the retrying call
wrapper (`_run_with_retry`) are translated faithfully; Python sets used
only for membership tests become lists tested by membership.
-/

set_option maxRecDepth 10000

namespace ResearchAgent

/-- Individual finding (`models/schemas.py`, class `Finding`). -/
structure Finding where
  content : String
  source : String
deriving DecidableEq

/-- Cited reference (`models/schemas.py`, class `Evidence`). -/
structure Evidence where
  title : String
  url : String
  summary : String
deriving DecidableEq

/-- Verified evidence item in a fact-check verdict (`VerifiedEvidence`). -/
structure VerifiedEvidence where
  title : String
  url : String
  original_url : String
  summary : String
  status : String
  verification_note : String
deriving DecidableEq

/-- Removed evidence item in a fact-check verdict (`RemovedEvidence`). -/
structure RemovedEvidence where
  title : String
  original_url : String
  reason : String
deriving DecidableEq

/-- Verified finding in a fact-check verdict (`VerifiedFinding`). -/
structure VerifiedFinding where
  content : String
  source : String
  source_url : String
  confidence : String
deriving DecidableEq

/-- Removed finding in a fact-check verdict (`RemovedFinding`). -/
structure RemovedFinding where
  content : String
  source : String
  reason : String
deriving DecidableEq

/-- Fact-check verdict (`FactCheckResultOutput`).  Python ints become `Int`;
the float `reliability_score` becomes `ℚ`. -/
structure FactCheckResultOutput where
  verified_evidences : List VerifiedEvidence
  removed_evidences : List RemovedEvidence
  verified_findings : List VerifiedFinding
  removed_findings : List RemovedFinding
  verification_summary : String
  total_verified : Int
  total_removed : Int
  reliability_score : ℚ
deriving DecidableEq

/-- Pydantic field validation on `FactCheckResultOutput.reliability_score`
(`ge=0.0, le=1.0`). -/
def FactCheckResultOutput.validated (fc : FactCheckResultOutput) : Prop :=
  0 ≤ fc.reliability_score ∧ fc.reliability_score ≤ 1

/-- Research plan (`SearchPlanOutput`); the keyword mapping becomes an
association list. -/
structure SearchPlanOutput where
  objective : String
  research_areas : List String
  search_keywords : List (String × List String)
  priority_order : List String
  research_strategy : String
  expected_outcomes : List String
deriving DecidableEq

/-- Per-iteration researcher result (`ResearchResultOutput`). -/
structure ResearchResultOutput where
  theme : String
  plan_used : Option SearchPlanOutput
  findings : List Finding
  evidence : List Evidence
  research_depth_analysis : String
  interconnections : List String
  summary : String
  iteration_number : Int
deriving DecidableEq

/-- Evaluator result (`EvaluationOutput`). -/
structure EvaluationOutput where
  iteration_number : Int
  objective_achievement_score : Int
  coverage_score : Int
  depth_insight_score : Int
  actionability_score : Int
  credibility_score : Int
  quantitative_score : Int
  coverage_gaps : List String
  overall_quality_score : Int
  should_refine : Bool
  refinement_strategy : Option String
  refined_plan : Option SearchPlanOutput
  expert_observations : String
deriving DecidableEq

/-- The per-iteration raw audit record appended to `raw_results`
(`research.py` lines 392-397): a dict re-built from the researcher output. -/
structure RawIterationRecord where
  iteration : Nat
  findings : List Finding
  evidence : List Evidence
  summary : String
deriving DecidableEq

/-- The dict appended to `fact_check_history` (`research.py` lines 471-478
and 532-539). -/
structure FactCheckHistoryEntry where
  iteration : Nat
  verified : Int
  removed : Int
  reliability : ℚ
  removed_reasons : List String
  summary : String
deriving DecidableEq

/-- The structured values the external agent calls of one loop iteration
would return: researcher output, fact-checker output (used only when the
fact-check call is issued), evaluator output. -/
structure IterationInput where
  research : ResearchResultOutput
  factCheck : FactCheckResultOutput
  evaluation : EvaluationOutput
deriving DecidableEq

/-- Mutable state of `run_agentic_research` across loop iterations.
`fact_check_calls` records the iterations at which the fact-check call was
actually issued (the observable effect of entering the non-skip branch). -/
structure LoopState where
  current_plan : SearchPlanOutput
  evaluations : List EvaluationOutput
  current_result : Option ResearchResultOutput
  raw_results : List RawIterationRecord
  accepted_findings : List Finding
  accepted_evidence : List Evidence
  fact_check_history : List FactCheckHistoryEntry
  fact_check_calls : List Nat
deriving DecidableEq

/-- Raw audit record built from the researcher output (`research.py` 392-397). -/
def rawRecordOf (i : Nat) (r : ResearchResultOutput) : RawIterationRecord :=
  { iteration := i
    findings := r.findings.map (fun f => { content := f.content, source := f.source })
    evidence := r.evidence.map (fun e => { title := e.title, url := e.url, summary := e.summary })
    summary := r.summary }

/-- Verified content-key set (`research.py` 485):
`{vf.content[:80] for vf in fact_check.verified_findings}`. -/
def verifiedContentKeys (fc : FactCheckResultOutput) : List String :=
  fc.verified_findings.map (fun vf => vf.content.take 80)

/-- Verified URL set (`research.py` 486-493): for each verified evidence,
add `original_url if original_url else url` when non-empty, and `url` when
non-empty. -/
def verifiedUrlKeys (fc : FactCheckResultOutput) : List String :=
  fc.verified_evidences.foldl
    (fun s ve =>
      let original := if ve.original_url ≠ "" then ve.original_url else ve.url
      let s1 := if original ≠ "" then s ++ [original] else s
      if ve.url ≠ "" then s1 ++ [ve.url] else s1)
    []

/-- Removal-reason strings recorded in the history entry (`research.py` 465-469). -/
def removedReasons (fc : FactCheckResultOutput) : List String :=
  fc.removed_findings.map (fun rf => rf.content.take 50 ++ "... → " ++ rf.reason) ++
    fc.removed_evidences.map (fun re => "URL: " ++ re.original_url ++ " → " ++ re.reason)

/-- Summary text of a skipped fact-check (`research.py` 538). -/
def skippedSummary : String := "ファクトチェックをスキップ（evidence/findingsが空）"

/-- Zero-valued history entry for a skipped fact-check (`research.py` 532-539). -/
def skippedEntry (i : Nat) : FactCheckHistoryEntry :=
  { iteration := i, verified := 0, removed := 0, reliability := 0,
    removed_reasons := [], summary := skippedSummary }

/-- History entry recorded after a fact-check call (`research.py` 471-478). -/
def factCheckEntry (i : Nat) (fc : FactCheckResultOutput) : FactCheckHistoryEntry :=
  { iteration := i, verified := fc.total_verified, removed := fc.total_removed,
    reliability := fc.reliability_score, removed_reasons := removedReasons fc,
    summary := fc.verification_summary }

/-- FC-passing findings of one iteration, selected from the researcher's
original findings (`research.py` 496-499). -/
def iterationAcceptedFindings (fc : FactCheckResultOutput)
    (r : ResearchResultOutput) : List Finding :=
  r.findings.filter (fun f => decide (f.content.take 80 ∈ verifiedContentKeys fc))

/-- FC-passing evidence of one iteration, selected from the researcher's
original evidence (`research.py` 502-505). -/
def iterationAcceptedEvidence (fc : FactCheckResultOutput)
    (r : ResearchResultOutput) : List Evidence :=
  r.evidence.filter (fun e => decide (e.url ∈ verifiedUrlKeys fc))

/-- One insertion into the accepted-findings pool (`research.py` 508-512):
skip when the first-80-char content key is already present, else append. -/
def mergeFinding (pool : List Finding) (f : Finding) : List Finding :=
  if f.content.take 80 ∈ pool.map (fun g => g.content.take 80) then pool
  else pool ++ [f]

/-- One insertion into the accepted-evidence pool (`research.py` 514-518):
append only when the url is non-empty and not already present. -/
def mergeEvidence (pool : List Evidence) (e : Evidence) : List Evidence :=
  if e.url ≠ "" ∧ e.url ∉ pool.map Evidence.url then pool ++ [e] else pool

/-- One full loop iteration (`research.py` 302-691, without the break/plan
logic that lives in `runFrom`): archive the raw record, set
`current_result`, either skip fact-checking (both findings and evidence
empty) or record the call, the history entry and the pool accumulation,
then append the evaluation with `iteration_number` forced to the loop
counter.  The per-field updates of the two branches commute with the order
of the Python statements because they touch disjoint fields. -/
def stepIteration (i : Nat) (inp : IterationInput) (st : LoopState) : LoopState :=
  if inp.research.evidence = [] ∧ inp.research.findings = [] then
    { st with
      raw_results := st.raw_results ++ [rawRecordOf i inp.research]
      current_result := some inp.research
      fact_check_history := st.fact_check_history ++ [skippedEntry i]
      evaluations := st.evaluations ++
        [{ inp.evaluation with iteration_number := (i : Int) }] }
  else
    { st with
      raw_results := st.raw_results ++ [rawRecordOf i inp.research]
      current_result := some inp.research
      fact_check_calls := st.fact_check_calls ++ [i]
      fact_check_history := st.fact_check_history ++ [factCheckEntry i inp.factCheck]
      accepted_findings :=
        (iterationAcceptedFindings inp.factCheck inp.research).foldl mergeFinding
          st.accepted_findings
      accepted_evidence :=
        (iterationAcceptedEvidence inp.factCheck inp.research).foldl mergeEvidence
          st.accepted_evidence
      evaluations := st.evaluations ++
        [{ inp.evaluation with iteration_number := (i : Int) }] }

/-- The iteration loop from counter `i` (`for iteration in range(1,
max_iterations+1)` at `research.py` 302, the break at 694, and the plan
replacement at 704-705).  Forcing `iteration_number` does not change
`should_refine` or `refined_plan`, so those are read off the evaluator
output directly. -/
def runFrom (inputs : Nat → IterationInput) (maxIter : Nat) (i : Nat)
    (st : LoopState) : LoopState :=
  if maxIter < i then st
  else if ((inputs i).evaluation).should_refine = false ∨ maxIter ≤ i then
    stepIteration i (inputs i) st
  else
    runFrom inputs maxIter (i + 1)
      (match ((inputs i).evaluation).refined_plan with
        | some p => { stepIteration i (inputs i) st with current_plan := p }
        | none => stepIteration i (inputs i) st)
termination_by maxIter + 1 - i
decreasing_by omega

/-- Loop state before iteration 1 (`research.py` 292-300). -/
def initState (plan : SearchPlanOutput) : LoopState :=
  { current_plan := plan, evaluations := [], current_result := none,
    raw_results := [], accepted_findings := [], accepted_evidence := [],
    fact_check_history := [], fact_check_calls := [] }

/-- Loop state after the whole iteration loop of `run_agentic_research`. -/
def loopFinalState (plan : SearchPlanOutput) (inputs : Nat → IterationInput)
    (maxIter : Nat) : LoopState :=
  runFrom inputs maxIter 1 (initState plan)

/-- Post-loop finalization (`research.py` 713-725): when a current result
exists, overwrite its findings/evidence with the accumulated pools (empty
pool ⇒ empty field). -/
def finalizeResult (st : LoopState) : Option ResearchResultOutput :=
  match st.current_result with
  | none => none
  | some r =>
    let r1 := if st.accepted_findings ≠ [] then { r with findings := st.accepted_findings }
      else { r with findings := [] }
    let r2 := if st.accepted_evidence ≠ [] then { r1 with evidence := st.accepted_evidence }
      else { r1 with evidence := [] }
    some r2

/-- `run_agentic_research` (from the point where the plan is fixed): returns
the 5-tuple of `research.py` line 741, with the finalized result. -/
def runAgenticResearch (plan : SearchPlanOutput) (inputs : Nat → IterationInput)
    (maxIter : Nat) :
    SearchPlanOutput × Option ResearchResultOutput × List EvaluationOutput ×
      List FactCheckHistoryEntry × List RawIterationRecord :=
  let st := loopFinalState plan inputs maxIter
  (st.current_plan, finalizeResult st, st.evaluations, st.fact_check_history, st.raw_results)

/-- Outcome of one underlying `Runner.run` + parse attempt: a parsed value,
a `ModelBehaviorError` (malformed structured output), or any other error. -/
inductive InvokeOutcome (α : Type) where
  | ok (value : α)
  | modelBehaviorError (msg : String)
  | otherError (msg : String)
deriving DecidableEq

/-- A deterministic Invoker stub: the outcome is a function of the prompt
actually sent. -/
def Invoker (α : Type) : Type := String → InvokeOutcome α

/-- Error raised out of the retry wrapper. -/
inductive RunError where
  | modelBehavior (msg : String)
  | other (msg : String)
deriving DecidableEq

/-- Shrink-output amendment appended on retry attempts (`research.py` 68-79,
the f-string with `attempt` and `max_retries` interpolated). -/
def retryAmendment (attempt maxRetries : Nat) : String :=
  "\n\n【⚠️ リトライ " ++ toString attempt ++ "/" ++ toString maxRetries ++
    " - 出力量削減指示】\n前回の出力がトークン制限で切り詰められ、JSONが壊れました。\n以下を厳守し、必ず完全なJSONを出力してください:\n- findings は最大 8 件に制限する（重要なものだけ厳選）\n- evidence は最大 5 件に制限する（最も信頼性の高いもの）\n- summary は 200 字以内にする\n- research_depth_analysis, interconnections は簡潔に（各 100 字以内）\n- plan_used は objective のみ記載し他は省略可能\n- 完全なJSON構造（すべての括弧が閉じている）を優先すること\n"

/-- Prompt used at a given attempt (`research.py` 64-79): attempt 0 sends the
prompt verbatim, later attempts append the shrink-output amendment. -/
def attemptPrompt (prompt : String) (attempt maxRetries : Nat) : String :=
  if attempt = 0 then prompt else prompt ++ retryAmendment attempt maxRetries

/-- The retry loop of `_run_with_retry` (`research.py` 60-97) from a given
attempt index, also returning the trace of prompts sent to the Invoker.
`lastMsg` models the `last_error` local. -/
def runWithRetryFrom {α : Type} (invoke : Invoker α) (prompt : String)
    (maxRetries : Nat) (attempt : Nat) (lastMsg : String) :
    List String × Except RunError α :=
  if _h : attempt < 1 + maxRetries then
    match invoke (attemptPrompt prompt attempt maxRetries) with
    | .ok v => ([attemptPrompt prompt attempt maxRetries], .ok v)
    | .modelBehaviorError m =>
      (attemptPrompt prompt attempt maxRetries ::
          (runWithRetryFrom invoke prompt maxRetries (attempt + 1) m).1,
        (runWithRetryFrom invoke prompt maxRetries (attempt + 1) m).2)
    | .otherError m =>
      ([attemptPrompt prompt attempt maxRetries], .error (.other m))
  else ([], .error (.modelBehavior lastMsg))
termination_by 1 + maxRetries - attempt
decreasing_by all_goals omega

/-- `_run_with_retry` (`research.py` 31-97): result plus the trace of prompts
actually sent to the underlying Invoker. -/
def runWithRetry {α : Type} (invoke : Invoker α) (prompt : String)
    (maxRetries : Nat) : List String × Except RunError α :=
  runWithRetryFrom invoke prompt maxRetries 0 ""

/-- The prompts `_run_with_retry` sends when every attempt fails: one per
attempt index `0 .. maxRetries`. -/
def expectedPrompts (prompt : String) (maxRetries : Nat) : List String :=
  (List.range (1 + maxRetries)).map (fun a => attemptPrompt prompt a maxRetries)

/-- The exact reliability ratio demanded by the spec for a history entry.
Modelled from the spec: "reliability_ratio == M / max(M+N, 1)" — the control
loop itself never computes this; it is the comparison target. -/
def specReliabilityRatio (M N : Int) : ℚ :=
  (M : ℚ) / ((max (M + N) 1 : Int) : ℚ)

/-! Concrete fixtures used by witnesses and the counterexample. -/

/-- A small concrete research plan. -/
def cPlan : SearchPlanOutput :=
  { objective := "obj", research_areas := ["area"],
    search_keywords := [("area", ["kw"])], priority_order := ["area"],
    research_strategy := "strategy", expected_outcomes := ["outcome"] }

/-- Concrete finding A. -/
def cFindingA : Finding := { content := "finding A", source := "src A" }

/-- Concrete finding B. -/
def cFindingB : Finding := { content := "finding B", source := "src B" }

/-- Concrete evidence with URL `http://x`. -/
def cEvidenceX : Evidence := { title := "X", url := "http://x", summary := "sx" }

/-- Concrete evidence with an empty URL. -/
def cEvidenceEmpty : Evidence := { title := "Z", url := "", summary := "sz" }

/-- Concrete researcher output with two findings and two evidence items. -/
def cResearch : ResearchResultOutput :=
  { theme := "th", plan_used := some cPlan,
    findings := [cFindingA, cFindingB],
    evidence := [cEvidenceX, cEvidenceEmpty],
    research_depth_analysis := "depth", interconnections := ["link"],
    summary := "sum", iteration_number := 1 }

/-- Concrete researcher output with no findings and no evidence. -/
def cEmptyResearch : ResearchResultOutput :=
  { theme := "th", plan_used := some cPlan, findings := [], evidence := [],
    research_depth_analysis := "depth", interconnections := [],
    summary := "sum", iteration_number := 1 }

/-- Concrete fact-check verdict: it verifies finding A and evidence
`http://x` (echoing a different URL `http://checker` as the verified copy),
reports counts M = 1, N = 0, and self-reports reliability 1/2. -/
def cFactCheck : FactCheckResultOutput :=
  { verified_evidences :=
      [{ title := "X", url := "http://checker", original_url := "http://x",
         summary := "s", status := "verified", verification_note := "" }],
    removed_evidences := [],
    verified_findings :=
      [{ content := "finding A", source := "src A", source_url := "http://x",
         confidence := "high" }],
    removed_findings := [],
    verification_summary := "checked",
    total_verified := 1, total_removed := 0, reliability_score := 1/2 }

/-- Concrete evaluator output that asks to continue. -/
def cEvalCont : EvaluationOutput :=
  { iteration_number := 1, objective_achievement_score := 5, coverage_score := 5,
    depth_insight_score := 5, actionability_score := 5, credibility_score := 5,
    quantitative_score := 5, coverage_gaps := ["gap"], overall_quality_score := 30,
    should_refine := true, refinement_strategy := some "more", refined_plan := none,
    expert_observations := "obs" }

/-- Concrete evaluator output that stops the loop. -/
def cEvalStop : EvaluationOutput :=
  { cEvalCont with should_refine := false, refinement_strategy := none }

/-- Concrete iteration stubs: researcher output plus a continuing evaluation. -/
def cInp : IterationInput := ⟨cResearch, cFactCheck, cEvalCont⟩

/-- Concrete iteration stubs with a stopping evaluation. -/
def cInpStop : IterationInput := ⟨cResearch, cFactCheck, cEvalStop⟩

/-- Concrete iteration stubs with an empty researcher output. -/
def cInpEmpty : IterationInput := ⟨cEmptyResearch, cFactCheck, cEvalStop⟩

/-- Stub trace where every evaluation asks to continue. -/
def cInputs : Nat → IterationInput := fun _ => cInp

/-- Stub trace where every evaluation stops. -/
def cInputsStop : Nat → IterationInput := fun _ => cInpStop

/-- Initial loop state over the concrete plan. -/
def cSt0 : LoopState := initState cPlan

/-- Invoker stub that always reports malformed structured output. -/
def cAlwaysMalformed : Invoker Nat := fun _ => .modelBehaviorError "truncated"

/-- Invoker stub that raises a non-malformed (service) error. -/
def cServiceError : Invoker Nat := fun _ => .otherError "network down"

/-- A member of `mergeFinding pool f` is a member of `pool` or is `f`. -/
theorem mem_of_mem_mergeFinding {pool : List Finding} {f g : Finding}
    (h : g ∈ mergeFinding pool f) : g ∈ pool ∨ g = f := by
  unfold mergeFinding at h
  split at h
  · exact Or.inl h
  · rcases List.mem_append.1 h with h1 | h1
    · exact Or.inl h1
    · exact Or.inr (List.mem_singleton.1 h1)

/-- Folding finding insertions only yields members of the initial pool or of
the inserted list. -/
theorem mem_of_mem_foldl_mergeFinding :
    ∀ (l pool : List Finding) (g : Finding),
      g ∈ l.foldl mergeFinding pool → g ∈ pool ∨ g ∈ l := by
  intro l
  induction l with
  | nil => exact fun pool g h => Or.inl h
  | cons x xs ih =>
    intro pool g h
    simp only [List.foldl_cons] at h
    rcases ih _ _ h with h1 | h1
    · rcases mem_of_mem_mergeFinding h1 with h2 | h2
      · exact Or.inl h2
      · exact Or.inr (h2 ▸ List.mem_cons_self x xs)
    · exact Or.inr (List.mem_cons_of_mem x h1)

/-- A member of `mergeEvidence pool e` is a member of `pool` or is `e`. -/
theorem mem_of_mem_mergeEvidence {pool : List Evidence} {e g : Evidence}
    (h : g ∈ mergeEvidence pool e) : g ∈ pool ∨ g = e := by
  unfold mergeEvidence at h
  split at h
  · rcases List.mem_append.1 h with h1 | h1
    · exact Or.inl h1
    · exact Or.inr (List.mem_singleton.1 h1)
  · exact Or.inl h

/-- Folding evidence insertions only yields members of the initial pool or of
the inserted list. -/
theorem mem_of_mem_foldl_mergeEvidence :
    ∀ (l pool : List Evidence) (g : Evidence),
      g ∈ l.foldl mergeEvidence pool → g ∈ pool ∨ g ∈ l := by
  intro l
  induction l with
  | nil => exact fun pool g h => Or.inl h
  | cons x xs ih =>
    intro pool g h
    simp only [List.foldl_cons] at h
    rcases ih _ _ h with h1 | h1
    · rcases mem_of_mem_mergeEvidence h1 with h2 | h2
      · exact Or.inl h2
      · exact Or.inr (h2 ▸ List.mem_cons_self x xs)
    · exact Or.inr (List.mem_cons_of_mem x h1)

/-- Every iteration appends exactly one evaluation, with the forced counter. -/
theorem stepIteration_evaluations (i : Nat) (inp : IterationInput) (st : LoopState) :
    (stepIteration i inp st).evaluations =
      st.evaluations ++ [{ inp.evaluation with iteration_number := (i : Int) }] := by
  unfold stepIteration
  split <;> rfl

/-- Every iteration sets `current_result` to that iteration's researcher
output. -/
theorem stepIteration_current_result (i : Nat) (inp : IterationInput) (st : LoopState) :
    (stepIteration i inp st).current_result = some inp.research := by
  unfold stepIteration
  split <;> rfl

/-- When the researcher output is non-empty, the iteration records the
fact-check call, appends the fact-check history entry verbatim from the
verdict, and folds the FC-passing items into the pools. -/
theorem stepIteration_nonskip (i : Nat) (inp : IterationInput) (st : LoopState)
    (h : ¬(inp.research.evidence = [] ∧ inp.research.findings = [])) :
    (stepIteration i inp st).fact_check_calls = st.fact_check_calls ++ [i] ∧
    (stepIteration i inp st).fact_check_history =
      st.fact_check_history ++ [factCheckEntry i inp.factCheck] ∧
    (stepIteration i inp st).accepted_findings =
      (iterationAcceptedFindings inp.factCheck inp.research).foldl mergeFinding
        st.accepted_findings ∧
    (stepIteration i inp st).accepted_evidence =
      (iterationAcceptedEvidence inp.factCheck inp.research).foldl mergeEvidence
        st.accepted_evidence := by
  unfold stepIteration
  rw [if_neg h]
  exact ⟨rfl, rfl, rfl, rfl⟩

/-- When the researcher output is empty, the iteration skips the fact-check
call, leaves the pools unchanged, and appends the zero-valued entry. -/
theorem stepIteration_skip (i : Nat) (inp : IterationInput) (st : LoopState)
    (h : inp.research.evidence = [] ∧ inp.research.findings = []) :
    (stepIteration i inp st).fact_check_calls = st.fact_check_calls ∧
    (stepIteration i inp st).fact_check_history =
      st.fact_check_history ++ [skippedEntry i] ∧
    (stepIteration i inp st).accepted_findings = st.accepted_findings ∧
    (stepIteration i inp st).accepted_evidence = st.accepted_evidence := by
  unfold stepIteration
  rw [if_pos h]
  exact ⟨rfl, rfl, rfl, rfl⟩

/-- The loop run from counter `i ≤ maxIter` ends with `current_result` set to
the researcher output of some executed iteration `m`, which is also the
iteration of the last appended evaluation. -/
theorem runFrom_last (inputs : Nat → IterationInput) (maxIter : Nat) (i : Nat)
    (st : LoopState) (hle : i ≤ maxIter) :
    ∃ m, i ≤ m ∧ m ≤ maxIter ∧
      (runFrom inputs maxIter i st).current_result = some ((inputs m).research) ∧
      (runFrom inputs maxIter i st).evaluations.getLast? =
        some { (inputs m).evaluation with iteration_number := (m : Int) } := by
  rw [runFrom]
  rw [if_neg (Nat.not_lt.2 hle)]
  by_cases hb : ((inputs i).evaluation).should_refine = false ∨ maxIter ≤ i
  · rw [if_pos hb]
    refine ⟨i, Nat.le_refl i, hle, stepIteration_current_result i (inputs i) st, ?_⟩
    rw [stepIteration_evaluations]
    exact List.getLast?_concat _
  · rw [if_neg hb]
    push_neg at hb
    obtain ⟨m, hm1, hm2, hcr, hgl⟩ :=
      runFrom_last inputs maxIter (i + 1)
        (match ((inputs i).evaluation).refined_plan with
          | some p => { stepIteration i (inputs i) st with current_plan := p }
          | none => stepIteration i (inputs i) st)
        (by omega)
    exact ⟨m, by omega, hm2, hcr, hgl⟩
termination_by maxIter + 1 - i
decreasing_by omega

/-- Counting executed iterations: if every evaluation before iteration `k`
says refine and the loop would stop at `k` (explicitly or because `k` exceeds
the budget), the loop run from `i` appends exactly
`min k maxIter + 1 - i` evaluations. -/
theorem runFrom_evaluations_length (inputs : Nat → IterationInput) (maxIter : Nat)
    (k : Nat) (i : Nat) (st : LoopState) (hle : i ≤ maxIter) (hik : i ≤ k)
    (hcont : ∀ j, i ≤ j → j < k → ((inputs j).evaluation).should_refine = true)
    (hstop : ((inputs k).evaluation).should_refine = false ∨ maxIter < k) :
    (runFrom inputs maxIter i st).evaluations.length =
      st.evaluations.length + (min k maxIter + 1 - i) := by
  rw [runFrom]
  rw [if_neg (Nat.not_lt.2 hle)]
  by_cases hb : ((inputs i).evaluation).should_refine = false ∨ maxIter ≤ i
  · rw [if_pos hb]
    rw [stepIteration_evaluations]
    rw [List.length_append, List.length_singleton]
    have hik2 : min k maxIter = i := by
      rcases hb with hb | hb
      · have hnk : ¬ i < k := by
          intro hlt
          have h2 := hcont i (Nat.le_refl i) hlt
          rw [hb] at h2
          exact Bool.false_ne_true h2
        omega
      · omega
    omega
  · rw [if_neg hb]
    push_neg at hb
    obtain ⟨hb1, hb2⟩ := hb
    have hik1 : i < k := by
      by_contra hc
      have hik0 : i = k := by omega
      rcases hstop with hs | hs
      · rw [hik0] at hb1
        exact hb1 hs
      · omega
    have := runFrom_evaluations_length inputs maxIter k (i + 1)
      (match ((inputs i).evaluation).refined_plan with
        | some p => { stepIteration i (inputs i) st with current_plan := p }
        | none => stepIteration i (inputs i) st)
      (by omega) (by omega)
      (fun j hj1 hj2 => hcont j (by omega) hj2) hstop
    have hstep : ∀ st' : LoopState,
        (match ((inputs i).evaluation).refined_plan with
          | some p => { stepIteration i (inputs i) st' with current_plan := p }
          | none => stepIteration i (inputs i) st').evaluations.length =
          st'.evaluations.length + 1 := by
      intro st'
      cases hrp : ((inputs i).evaluation).refined_plan with
      | some p =>
        show (stepIteration i (inputs i) st').evaluations.length = _
        rw [stepIteration_evaluations, List.length_append, List.length_singleton]
      | none =>
        show (stepIteration i (inputs i) st').evaluations.length = _
        rw [stepIteration_evaluations, List.length_append, List.length_singleton]
    rw [this, hstep st]
    omega
termination_by maxIter + 1 - i
decreasing_by omega

/-- When every attempt yields a malformed-output error, the retry loop from
attempt `j ≤ k` sends exactly the prompts of attempts `j .. k` and re-raises
the error of the final attempt. -/
theorem runWithRetryFrom_allFail {α : Type} (invoke : Invoker α) (prompt : String)
    (k : Nat) (j : Nat) (lastMsg : String) (hj : j ≤ k)
    (hfail : ∀ p, ∃ m, invoke p = .modelBehaviorError m) :
    (runWithRetryFrom invoke prompt k j lastMsg).1 =
      (List.range' j (k + 1 - j)).map (fun a => attemptPrompt prompt a k) ∧
    ∃ m, invoke (attemptPrompt prompt k k) = .modelBehaviorError m ∧
      (runWithRetryFrom invoke prompt k j lastMsg).2 = .error (.modelBehavior m) := by
  obtain ⟨mj, hmj⟩ := hfail (attemptPrompt prompt j k)
  have hstep : runWithRetryFrom invoke prompt k j lastMsg =
      (attemptPrompt prompt j k :: (runWithRetryFrom invoke prompt k (j + 1) mj).1,
        (runWithRetryFrom invoke prompt k (j + 1) mj).2) := by
    rw [runWithRetryFrom]
    rw [dif_pos (by omega : j < 1 + k)]
    rw [hmj]
  rw [hstep]
  by_cases hjk : j = k
  · subst hjk
    have hstop : runWithRetryFrom invoke prompt j (j + 1) mj =
        ([], Except.error (RunError.modelBehavior mj)) := by
      rw [runWithRetryFrom]
      rw [dif_neg (by omega : ¬ j + 1 < 1 + j)]
    rw [hstop]
    have hr : j + 1 - j = 1 := by omega
    rw [hr, List.range'_one]
    exact ⟨rfl, mj, hmj, rfl⟩
  · obtain ⟨ih1, m, hm1, hm2⟩ :=
      runWithRetryFrom_allFail invoke prompt k (j + 1) mj (by omega) hfail
    constructor
    · show attemptPrompt prompt j k :: (runWithRetryFrom invoke prompt k (j + 1) mj).1 = _
      rw [ih1]
      have hs : k + 1 - j = (k - j) + 1 := by omega
      have hs2 : k + 1 - (j + 1) = k - j := by omega
      rw [hs, List.range'_succ, List.map_cons, hs2]
    · exact ⟨m, hm1, hm2⟩
termination_by k + 1 - j
decreasing_by omega

/-- Finalization overwrites exactly the findings/evidence fields with the
pools; empty pool and non-empty pool collapse to the same overwrite. -/
theorem finalizeResult_eq {st : LoopState} {r : ResearchResultOutput}
    (h : st.current_result = some r) :
    finalizeResult st =
      some { r with
        findings := st.accepted_findings
        evidence := st.accepted_evidence } := by
  unfold finalizeResult
  rw [h]
  by_cases hf : st.accepted_findings = [] <;> by_cases he : st.accepted_evidence = [] <;>
    simp [hf, he]


/-- Claim C1: in every iteration, every Finding and Evidence accepted into
the accumulation pools either was already in the pool or is an element of
that iteration's original researcher output selected by membership of its
first-80-character content key in the verified-key set (findings) or of its
url in the verified-URL set (evidence); in particular every newly accepted
Evidence's url equals the url of some Evidence in the raw researcher output,
and the fact-checker's echoed copies are never themselves inserted. -/
theorem accepted_items_come_from_researcher_output (i : Nat)
    (inp : IterationInput) (st : LoopState) :
    (∀ f ∈ (stepIteration i inp st).accepted_findings,
        f ∈ st.accepted_findings ∨
          (f ∈ inp.research.findings ∧
            f.content.take 80 ∈ verifiedContentKeys inp.factCheck)) ∧
    (∀ e ∈ (stepIteration i inp st).accepted_evidence,
        e ∈ st.accepted_evidence ∨
          (e ∈ inp.research.evidence ∧ e.url ∈ verifiedUrlKeys inp.factCheck ∧
            ∃ e0 ∈ inp.research.evidence, e0.url = e.url)) := by
  by_cases h : inp.research.evidence = [] ∧ inp.research.findings = []
  · obtain ⟨_, _, hf, he⟩ := stepIteration_skip i inp st h
    constructor
    · intro f hfm
      rw [hf] at hfm
      exact Or.inl hfm
    · intro e hem
      rw [he] at hem
      exact Or.inl hem
  · obtain ⟨_, _, hf, he⟩ := stepIteration_nonskip i inp st h
    constructor
    · intro f hfm
      rw [hf] at hfm
      rcases mem_of_mem_foldl_mergeFinding _ _ _ hfm with h1 | h1
      · exact Or.inl h1
      · right
        unfold iterationAcceptedFindings at h1
        have h2 := List.mem_filter.1 h1
        exact ⟨h2.1, of_decide_eq_true h2.2⟩
    · intro e hem
      rw [he] at hem
      rcases mem_of_mem_foldl_mergeEvidence _ _ _ hem with h1 | h1
      · exact Or.inl h1
      · right
        unfold iterationAcceptedEvidence at h1
        have h2 := List.mem_filter.1 h1
        exact ⟨h2.1, of_decide_eq_true h2.2, e, h2.1, rfl⟩

/-- Witness for C1 at a concrete iteration: finding A and evidence
`http://x` are accepted from the researcher's own output. -/
theorem accepted_items_come_from_researcher_output_witness :
    (cFindingA ∈ cSt0.accepted_findings ∨
      (cFindingA ∈ cInp.research.findings ∧
        cFindingA.content.take 80 ∈ verifiedContentKeys cInp.factCheck)) ∧
    (cEvidenceX ∈ cSt0.accepted_evidence ∨
      (cEvidenceX ∈ cInp.research.evidence ∧
        cEvidenceX.url ∈ verifiedUrlKeys cInp.factCheck ∧
        ∃ e0 ∈ cInp.research.evidence, e0.url = cEvidenceX.url)) :=
  ⟨(accepted_items_come_from_researcher_output 1 cInp cSt0).1 cFindingA (by decide),
    (accepted_items_come_from_researcher_output 1 cInp cSt0).2 cEvidenceX (by decide)⟩

/-- Claim C2: when the loop executes at least one iteration, the returned
final result exists and its findings/evidence equal the accumulated pools in
accumulation order (empty pool gives the empty sequence). -/
theorem final_result_fields_equal_pools (plan : SearchPlanOutput)
    (inputs : Nat → IterationInput) (maxIter : Nat) (h : 1 ≤ maxIter) :
    ∃ res, (runAgenticResearch plan inputs maxIter).2.1 = some res ∧
      res.findings = (loopFinalState plan inputs maxIter).accepted_findings ∧
      res.evidence = (loopFinalState plan inputs maxIter).accepted_evidence := by
  obtain ⟨m, _, _, hcr, _⟩ := runFrom_last inputs maxIter 1 (initState plan) h
  have hfin : (runAgenticResearch plan inputs maxIter).2.1 =
      some { (inputs m).research with
        findings := (loopFinalState plan inputs maxIter).accepted_findings
        evidence := (loopFinalState plan inputs maxIter).accepted_evidence } := by
    show finalizeResult (loopFinalState plan inputs maxIter) = _
    exact finalizeResult_eq hcr
  exact ⟨_, hfin, rfl, rfl⟩

/-- Witness for C2: a one-iteration run where the pools end with finding A
and evidence `http://x`. -/
theorem final_result_fields_equal_pools_witness :
    ∃ res, (runAgenticResearch cPlan cInputsStop 1).2.1 = some res ∧
      res.findings = (loopFinalState cPlan cInputsStop 1).accepted_findings ∧
      res.evidence = (loopFinalState cPlan cInputsStop 1).accepted_evidence :=
  final_result_fields_equal_pools cPlan cInputsStop 1 (Nat.le_refl 1)

/-- Running the loop with an iteration budget of 1 performs exactly the
first iteration's step (the break always fires at the budget). -/
theorem loopFinalState_one (plan : SearchPlanOutput) (inputs : Nat → IterationInput) :
    loopFinalState plan inputs 1 = stepIteration 1 (inputs 1) (initState plan) := by
  unfold loopFinalState
  rw [runFrom]
  rw [if_neg (by omega : ¬ 1 < 1)]
  rw [if_pos (Or.inr (by omega : 1 ≤ 1))]

/-- Claim C3, counterexample: a fact-check verdict may report
`total_verified = 1`, `total_removed = 0` and `reliability_score = 1/2`;
the history entry then carries reliability 1/2, while the claimed formula
`M / max(M+N, 1)` gives 1. -/
theorem fc_history_reliability_counterexample :
    (loopFinalState cPlan cInputsStop 1).fact_check_history =
      [factCheckEntry 1 cFactCheck] ∧
    (factCheckEntry 1 cFactCheck).verified = 1 ∧
    (factCheckEntry 1 cFactCheck).removed = 0 ∧
    (factCheckEntry 1 cFactCheck).reliability = 1/2 ∧
    specReliabilityRatio 1 0 = 1 ∧ ((1 : ℚ)/2) ≠ 1 := by
  refine ⟨?_, rfl, rfl, rfl, ?_, ?_⟩
  · rw [loopFinalState_one]
    obtain ⟨_, h2, _, _⟩ :=
      stepIteration_nonskip 1 (cInputsStop 1) (initState cPlan) (by decide)
    rw [h2]
    rfl
  · unfold specReliabilityRatio
    norm_num
  · norm_num

/-- Claim C3, amended: the history entry appended for a fact-checked
iteration copies `verified_count`, `removed_count` and `reliability_ratio`
verbatim from the verdict's `total_verified`, `total_removed` and
`reliability_score` fields; schema validation keeps the ratio in [0,1], and
the ratio equals `M / max(M+N, 1)` exactly when the verdict itself reports
that value. -/
theorem fc_history_reliability_copied (i : Nat) (inp : IterationInput)
    (st : LoopState)
    (hne : ¬(inp.research.evidence = [] ∧ inp.research.findings = []))
    (hval : inp.factCheck.validated) :
    (stepIteration i inp st).fact_check_history =
      st.fact_check_history ++
        [{ iteration := i, verified := inp.factCheck.total_verified,
           removed := inp.factCheck.total_removed,
           reliability := inp.factCheck.reliability_score,
           removed_reasons := removedReasons inp.factCheck,
           summary := inp.factCheck.verification_summary }] ∧
    0 ≤ (factCheckEntry i inp.factCheck).reliability ∧
    (factCheckEntry i inp.factCheck).reliability ≤ 1 ∧
    (inp.factCheck.reliability_score =
        specReliabilityRatio inp.factCheck.total_verified inp.factCheck.total_removed →
      (factCheckEntry i inp.factCheck).reliability =
        specReliabilityRatio (factCheckEntry i inp.factCheck).verified
          (factCheckEntry i inp.factCheck).removed) :=
  ⟨(stepIteration_nonskip i inp st hne).2.1, hval.1, hval.2, fun hr => hr⟩

/-- Witness for the amended C3 at iteration 1 with the concrete verdict. -/
theorem fc_history_reliability_copied_witness :
    (stepIteration 1 cInp cSt0).fact_check_history =
      cSt0.fact_check_history ++
        [{ iteration := 1, verified := cInp.factCheck.total_verified,
           removed := cInp.factCheck.total_removed,
           reliability := cInp.factCheck.reliability_score,
           removed_reasons := removedReasons cInp.factCheck,
           summary := cInp.factCheck.verification_summary }] ∧
    0 ≤ (factCheckEntry 1 cInp.factCheck).reliability ∧
    (factCheckEntry 1 cInp.factCheck).reliability ≤ 1 ∧
    (cInp.factCheck.reliability_score =
        specReliabilityRatio cInp.factCheck.total_verified cInp.factCheck.total_removed →
      (factCheckEntry 1 cInp.factCheck).reliability =
        specReliabilityRatio (factCheckEntry 1 cInp.factCheck).verified
          (factCheckEntry 1 cInp.factCheck).removed) :=
  fc_history_reliability_copied 1 cInp cSt0 (by decide)
    ⟨by show (0 : ℚ) ≤ 1/2; norm_num, by show (1 : ℚ)/2 ≤ 1; norm_num⟩

/-- Claim C4: if the Invoker raises a malformed-structured-output failure on
every attempt, `_run_with_retry` with `max_retries = k` calls the Invoker
exactly `k + 1` times — attempt 0 with the prompt verbatim, each retry with
the fixed shrink-output amendment appended — and then re-raises the last
malformed-output failure; `k = 0` gives exactly one unamended attempt. -/
theorem retry_exhausts_and_reraises {α : Type} (invoke : Invoker α)
    (prompt : String) (k : Nat)
    (hfail : ∀ p, ∃ m, invoke p = .modelBehaviorError m) :
    (runWithRetry invoke prompt k).1 = expectedPrompts prompt k ∧
    (runWithRetry invoke prompt k).1.length = k + 1 ∧
    attemptPrompt prompt 0 k = prompt ∧
    (∀ a, a ≠ 0 → attemptPrompt prompt a k = prompt ++ retryAmendment a k) ∧
    ∃ m, invoke (attemptPrompt prompt k k) = .modelBehaviorError m ∧
      (runWithRetry invoke prompt k).2 = .error (.modelBehavior m) := by
  obtain ⟨h1, m, hm1, hm2⟩ :=
    runWithRetryFrom_allFail invoke prompt k 0 "" (Nat.zero_le k) hfail
  have htr : (runWithRetry invoke prompt k).1 = expectedPrompts prompt k := by
    show (runWithRetryFrom invoke prompt k 0 "").1 = _
    rw [h1]
    unfold expectedPrompts
    rw [List.range_eq_range']
    have hn : k + 1 - 0 = 1 + k := by omega
    rw [hn]
  refine ⟨htr, ?_, rfl, fun a ha => ?_, m, hm1, hm2⟩
  · rw [htr]
    unfold expectedPrompts
    rw [List.length_map, List.length_range]
    omega
  · rw [attemptPrompt, if_neg ha]

/-- Witness for C4: an always-malformed stub with `max_retries = 2` is
called exactly 3 times and the last error is re-raised. -/
theorem retry_exhausts_and_reraises_witness :
    (runWithRetry cAlwaysMalformed "p" 2).1 = expectedPrompts "p" 2 ∧
    (runWithRetry cAlwaysMalformed "p" 2).1.length = 2 + 1 ∧
    attemptPrompt "p" 0 2 = "p" ∧
    (∀ a, a ≠ 0 → attemptPrompt "p" a 2 = "p" ++ retryAmendment a 2) ∧
    ∃ m, cAlwaysMalformed (attemptPrompt "p" 2 2) = .modelBehaviorError m ∧
      (runWithRetry cAlwaysMalformed "p" 2).2 = .error (.modelBehavior m) :=
  retry_exhausts_and_reraises cAlwaysMalformed "p" 2 (fun _ => ⟨"truncated", rfl⟩)

/-- Claim C5: a failure that is not a malformed-structured-output failure on
the first attempt makes `_run_with_retry` call the Invoker exactly once (the
verbatim prompt) and propagate that failure unchanged, with no retries. -/
theorem non_malformed_error_propagates_once {α : Type} (invoke : Invoker α)
    (prompt : String) (k : Nat) (m : String)
    (hother : invoke prompt = .otherError m) :
    runWithRetry invoke prompt k = ([prompt], .error (.other m)) := by
  unfold runWithRetry
  rw [runWithRetryFrom]
  rw [dif_pos (by omega : 0 < 1 + k)]
  have hp : attemptPrompt prompt 0 k = prompt := rfl
  rw [hp, hother]

/-- Witness for C5: a service-error stub is called once and its error
propagates unchanged even with retries available. -/
theorem non_malformed_error_propagates_once_witness :
    runWithRetry cServiceError "p" 2 =
      (["p"], .error (.other "network down")) :=
  non_malformed_error_propagates_once cServiceError "p" 2 "network down" rfl

/-- Claim C6: the loop executes exactly `min k maxIter` iterations and
returns normally, where `k` is the first iteration whose evaluation says
stop (`should_refine = false`); if every evaluation up to the budget says
continue, any `k > maxIter` witnesses the forced stop at the budget. -/
theorem loop_executes_min_iterations (plan : SearchPlanOutput)
    (inputs : Nat → IterationInput) (maxIter k : Nat)
    (hmax : 1 ≤ maxIter) (hk : 1 ≤ k)
    (hcont : ∀ j, 1 ≤ j → j < k → ((inputs j).evaluation).should_refine = true)
    (hstop : ((inputs k).evaluation).should_refine = false ∨ maxIter < k) :
    (loopFinalState plan inputs maxIter).evaluations.length = min k maxIter := by
  have hlen := runFrom_evaluations_length inputs maxIter k 1 (initState plan)
    hmax hk (fun j hj1 hj2 => hcont j hj1 hj2) hstop
  unfold loopFinalState
  rw [hlen]
  show (initState plan).evaluations.length + (min k maxIter + 1 - 1) = min k maxIter
  have h0 : (initState plan).evaluations.length = 0 := rfl
  omega

/-- Witness for C6: with an always-continue evaluator and `maxIter = 3` the
loop runs exactly `min 4 3 = 3` iterations. -/
theorem loop_executes_min_iterations_witness :
    (loopFinalState cPlan cInputs 3).evaluations.length = min 4 3 ∧ min 4 3 = 3 :=
  ⟨loop_executes_min_iterations cPlan cInputs 3 4 (by omega) (by omega)
      (fun _ _ _ => rfl) (Or.inr (by omega)),
    by decide⟩

/-- Claim C7: merging a Finding whose first-80-character content key already
occurs in the pool leaves the pool (hence its size) unchanged; merging one
with a fresh key appends it at the end, growing the pool by exactly 1. -/
theorem findings_pool_dedup (pool : List Finding) (f : Finding) :
    (f.content.take 80 ∈ pool.map (fun g => g.content.take 80) →
      mergeFinding pool f = pool ∧ (mergeFinding pool f).length = pool.length) ∧
    (f.content.take 80 ∉ pool.map (fun g => g.content.take 80) →
      mergeFinding pool f = pool ++ [f] ∧
        (mergeFinding pool f).length = pool.length + 1) := by
  constructor
  · intro h
    unfold mergeFinding
    rw [if_pos h]
    exact ⟨rfl, rfl⟩
  · intro h
    unfold mergeFinding
    rw [if_neg h]
    exact ⟨rfl, by rw [List.length_append, List.length_singleton]⟩

/-- Witness for C7: inserting finding A into a pool already keyed by it is a
no-op; inserting finding B grows the pool by one at the end. -/
theorem findings_pool_dedup_witness :
    (mergeFinding [cFindingA] cFindingA = [cFindingA] ∧
      (mergeFinding [cFindingA] cFindingA).length = [cFindingA].length) ∧
    (mergeFinding [cFindingA] cFindingB = [cFindingA] ++ [cFindingB] ∧
      (mergeFinding [cFindingA] cFindingB).length = [cFindingA].length + 1) :=
  ⟨(findings_pool_dedup [cFindingA] cFindingA).1 (by decide),
    (findings_pool_dedup [cFindingA] cFindingB).2 (by decide)⟩

/-- Claim C8: merging an Evidence whose url equals a pool element's url
leaves the pool unchanged; merging one with a new non-empty url appends it,
growing the pool by exactly 1; an Evidence with an empty url is never added,
regardless of the pool. -/
theorem evidence_pool_dedup (pool : List Evidence) (e : Evidence) :
    (e.url ∈ pool.map Evidence.url →
      mergeEvidence pool e = pool ∧ (mergeEvidence pool e).length = pool.length) ∧
    (e.url ≠ "" → e.url ∉ pool.map Evidence.url →
      mergeEvidence pool e = pool ++ [e] ∧
        (mergeEvidence pool e).length = pool.length + 1) ∧
    (e.url = "" → mergeEvidence pool e = pool) := by
  refine ⟨?_, ?_, ?_⟩
  · intro h
    unfold mergeEvidence
    rw [if_neg (fun hc => hc.2 h)]
    exact ⟨rfl, rfl⟩
  · intro h1 h2
    unfold mergeEvidence
    rw [if_pos ⟨h1, h2⟩]
    exact ⟨rfl, by rw [List.length_append, List.length_singleton]⟩
  · intro h
    unfold mergeEvidence
    rw [if_neg (fun hc => hc.1 h)]

/-- Witness for C8: re-inserting url `http://x` is a no-op, a fresh url is
appended, and empty-url evidence is never added. -/
theorem evidence_pool_dedup_witness :
    (mergeEvidence [cEvidenceX] cEvidenceX = [cEvidenceX] ∧
      (mergeEvidence [cEvidenceX] cEvidenceX).length = [cEvidenceX].length) ∧
    (mergeEvidence [] cEvidenceX = [] ++ [cEvidenceX] ∧
      (mergeEvidence [] cEvidenceX).length = List.length ([] : List Evidence) + 1) ∧
    (mergeEvidence [cEvidenceX] cEvidenceEmpty = [cEvidenceX]) :=
  ⟨(evidence_pool_dedup [cEvidenceX] cEvidenceX).1 (by decide),
    (evidence_pool_dedup [] cEvidenceX).2.1 (by decide) (by decide),
    (evidence_pool_dedup [cEvidenceX] cEvidenceEmpty).2.2 (by decide)⟩

/-- Claim C9: an iteration whose researcher output has no findings and no
evidence never issues the fact-check call, and appends a normal history
entry with zero verified and removed counts, reliability 0, no removal
reasons, and the skipped summary. -/
theorem empty_iteration_skips_factcheck (i : Nat) (inp : IterationInput)
    (st : LoopState) (hf : inp.research.findings = [])
    (he : inp.research.evidence = []) :
    (stepIteration i inp st).fact_check_calls = st.fact_check_calls ∧
    (stepIteration i inp st).fact_check_history =
      st.fact_check_history ++
        [{ iteration := i, verified := 0, removed := 0, reliability := 0,
           removed_reasons := [], summary := skippedSummary }] := by
  obtain ⟨h1, h2, _, _⟩ := stepIteration_skip i inp st ⟨he, hf⟩
  exact ⟨h1, h2⟩

/-- Witness for C9 at a concrete empty iteration. -/
theorem empty_iteration_skips_factcheck_witness :
    (stepIteration 1 cInpEmpty cSt0).fact_check_calls = cSt0.fact_check_calls ∧
    (stepIteration 1 cInpEmpty cSt0).fact_check_history =
      cSt0.fact_check_history ++
        [{ iteration := 1, verified := 0, removed := 0, reliability := 0,
           removed_reasons := [], summary := skippedSummary }] :=
  empty_iteration_skips_factcheck 1 cInpEmpty cSt0 rfl rfl

/-- Claim C10: finalization changes only findings and evidence — the
returned result's theme, plan_used, research_depth_analysis,
interconnections, summary and iteration_number are exactly those of the last
executed iteration's raw researcher output. -/
theorem finalization_preserves_other_fields (plan : SearchPlanOutput)
    (inputs : Nat → IterationInput) (maxIter : Nat) (h : 1 ≤ maxIter) :
    ∃ m res, 1 ≤ m ∧ m ≤ maxIter ∧
      (loopFinalState plan inputs maxIter).current_result =
        some ((inputs m).research) ∧
      (loopFinalState plan inputs maxIter).evaluations.getLast? =
        some { (inputs m).evaluation with iteration_number := (m : Int) } ∧
      (runAgenticResearch plan inputs maxIter).2.1 = some res ∧
      res.theme = ((inputs m).research).theme ∧
      res.plan_used = ((inputs m).research).plan_used ∧
      res.research_depth_analysis = ((inputs m).research).research_depth_analysis ∧
      res.interconnections = ((inputs m).research).interconnections ∧
      res.summary = ((inputs m).research).summary ∧
      res.iteration_number = ((inputs m).research).iteration_number := by
  obtain ⟨m, hm1, hm2, hcr, hgl⟩ := runFrom_last inputs maxIter 1 (initState plan) h
  have hfin : (runAgenticResearch plan inputs maxIter).2.1 =
      some { (inputs m).research with
        findings := (loopFinalState plan inputs maxIter).accepted_findings
        evidence := (loopFinalState plan inputs maxIter).accepted_evidence } := by
    show finalizeResult (loopFinalState plan inputs maxIter) = _
    exact finalizeResult_eq hcr
  exact ⟨m, _, hm1, hm2, hcr, hgl, hfin, rfl, rfl, rfl, rfl, rfl, rfl⟩

/-- Witness for C10 on a concrete one-iteration run. -/
theorem finalization_preserves_other_fields_witness :
    ∃ m res, 1 ≤ m ∧ m ≤ 1 ∧
      (loopFinalState cPlan cInputsStop 1).current_result =
        some ((cInputsStop m).research) ∧
      (loopFinalState cPlan cInputsStop 1).evaluations.getLast? =
        some { (cInputsStop m).evaluation with iteration_number := (m : Int) } ∧
      (runAgenticResearch cPlan cInputsStop 1).2.1 = some res ∧
      res.theme = ((cInputsStop m).research).theme ∧
      res.plan_used = ((cInputsStop m).research).plan_used ∧
      res.research_depth_analysis = ((cInputsStop m).research).research_depth_analysis ∧
      res.interconnections = ((cInputsStop m).research).interconnections ∧
      res.summary = ((cInputsStop m).research).summary ∧
      res.iteration_number = ((cInputsStop m).research).iteration_number :=
  finalization_preserves_other_fields cPlan cInputsStop 1 (Nat.le_refl 1)

end ResearchAgent
